import Mathlib

/-!
Verification of the response-classification and rendering logic of
`src/completion.py` (gpt-private-bot).

The Python module is dynamically typed glue around two HTTP calls.  We embed
it shallowly:

* `PyVal` models the Python values that arise from `json`-parsed response
  bodies (and the `None` literal).  JSON floats never reach the logic we
  verify, so numbers are modelled as integers.
* The HTTP transport (session creation, `session.post`, `r.json()`) is
  abstracted as a function from the request that the pipeline builds to an
  `HttpOutcome`: either an exception (carrying `str(e)`) raised anywhere up
  to and including body parsing, or a completed response with its status
  code and parsed body.
* Subscripting (`js['error']`, `js['choices'][0]`) is partial in Python; we
  model it with `Except String PyVal`, the error string standing for the
  `str` of the exception CPython would raise (messages modelled after
  CPython for the common cases).
* `logger.exception(e)` calls are made explicit: each pipeline returns the
  result bundle paired with the list of logged exception strings.
* The renderers are modelled as functions from the result bundle to the
  list of Discord operations performed, in order.  The external
  collaborators `split_into_shorter_messages` and `MAX_CHARS_PER_REPLY_MSG`
  (from `src.utils` / `src.constants`, declared external collaborators by
  the spec) are parameters.  Configuration constants that do not influence
  control flow (API URLs, key, model identifiers) are omitted from the
  request records.
-/

/-- Python values as produced by parsing a JSON body (plus the `None`
literal).  Numeric payloads are modelled as integers: no number ever
reaches the classification logic. -/
inductive PyVal where
  | none : PyVal
  | str (s : String) : PyVal
  | int (n : Int) : PyVal
  | bool (b : Bool) : PyVal
  | list (xs : List PyVal) : PyVal
  | dict (fs : List (String × PyVal)) : PyVal

/-- Python truthiness: the test `if not x` succeeds exactly when `falsy x`. -/
def PyVal.falsy : PyVal → Bool
  | .none => true
  | .str s => s.isEmpty
  | .int n => n == 0
  | .bool b => !b
  | .list xs => xs.isEmpty
  | .dict fs => fs.isEmpty

/-- Python type name, used in `TypeError` messages. -/
def PyVal.typeName : PyVal → String
  | .none => "NoneType"
  | .str _ => "str"
  | .int _ => "int"
  | .bool _ => "bool"
  | .list _ => "list"
  | .dict _ => "dict"

/-- Wrap a string in single quotes, as CPython repr and `KeyError` do. -/
def squote (s : String) : String := "\x27" ++ s ++ "\x27"

mutual

/-- Python `repr`, modelled for the common case (single-quoted strings). -/
def PyVal.pyRepr : PyVal → String
  | .none => "None"
  | .str s => squote s
  | .int n => toString n
  | .bool b => if b then "True" else "False"
  | .list xs => "[" ++ PyVal.pyReprList xs ++ "]"
  | .dict fs => "\x7b" ++ PyVal.pyReprDict fs ++ "\x7d"

def PyVal.pyReprList : List PyVal → String
  | [] => ""
  | [x] => x.pyRepr
  | x :: xs => x.pyRepr ++ ", " ++ PyVal.pyReprList xs

def PyVal.pyReprDict : List (String × PyVal) → String
  | [] => ""
  | [(k, v)] => squote k ++ ": " ++ v.pyRepr
  | (k, v) :: fs => squote k ++ ": " ++ v.pyRepr ++ ", " ++ PyVal.pyReprDict fs

end

/-- Python `str()`, as applied by an f-string: a string interpolates as
itself, every other value via its repr. -/
def PyVal.pyStr : PyVal → String
  | .str s => s
  | v => v.pyRepr

/-- Python subscripting by a string key, `v[k]`.  On failure the error
string models `str` of the exception CPython raises (`KeyError` carries
the quoted key, other receivers raise `TypeError`). -/
def PyVal.getKey : PyVal → String → Except String PyVal
  | .dict fs, k =>
    match fs.lookup k with
    | some v => Except.ok v
    | Option.none => Except.error (squote k)
  | .str _, _ => Except.error "string indices must be integers"
  | .list _, _ => Except.error "list indices must be integers or slices, not str"
  | v, _ => Except.error (squote v.typeName ++ " object is not subscriptable")

/-- Python subscripting by a non-negative integer index, `v[i]`. -/
def PyVal.getIdx : PyVal → Nat → Except String PyVal
  | .list xs, i =>
    match xs.get? i with
    | some v => Except.ok v
    | Option.none => Except.error "list index out of range"
  | .str s, i =>
    match s.data.get? i with
    | some c => Except.ok (.str (String.singleton c))
    | Option.none => Except.error "string index out of range"
  | .dict _, i => Except.error (toString i)
  | v, _ => Except.error (squote v.typeName ++ " object is not subscriptable")

/-- Python `==` against a string literal: true exactly for the equal
string (no cross-type equality involves `str`). -/
def PyVal.eqStr : PyVal → String → Bool
  | .str s, t => s == t
  | _, _ => false

/-- `js['choices'][0]['message']['content']` (completion.py line 46). -/
def extract_reply (js : PyVal) : Except String PyVal :=
  js.getKey "choices" >>= (·.getIdx 0) >>= (·.getKey "message") >>= (·.getKey "content")

/-- `js['error']['code']` (completion.py lines 50 and 82). -/
def extract_error_code (js : PyVal) : Except String PyVal :=
  js.getKey "error" >>= (·.getKey "code")

/-- `js['data'][0]['b64_json']` (completion.py line 78). -/
def extract_b64 (js : PyVal) : Except String PyVal :=
  js.getKey "data" >>= (·.getIdx 0) >>= (·.getKey "b64_json")

/-- `CompletionResult` (completion.py lines 12-15). -/
inductive CompletionResult where
  | OK : CompletionResult
  | TOO_LONG : CompletionResult
  | ERROR : CompletionResult
deriving DecidableEq

/-- `CompletionData` (completion.py lines 18-22).  The fields annotated
`Optional[str]` hold arbitrary Python values at runtime (the error branch
stores the parsed body `js` into `status_text`), so they are modelled as
`PyVal` with `PyVal.none` standing for Python `None`. -/
structure CompletionData where
  status : CompletionResult
  reply_text : PyVal
  status_text : PyVal

/-- `ImageCompletionData` (completion.py lines 24-28). -/
structure ImageCompletionData where
  status : CompletionResult
  image64 : PyVal
  status_text : PyVal

/-- An opaque conversational turn: `render()` produces its key-value wire
form (spec §3 / §6: a mapping with role and content fields). -/
structure Message where
  fields : List (String × PyVal)

/-- `Message.render()`: the wire-form mapping of the turn. -/
def Message.render (m : Message) : List (String × PyVal) := m.fields

/-- Outcome of one transport interaction: an exception (anywhere from
session creation through `await r.json()`, carrying `str(e)`), or a
completed response with HTTP status and parsed JSON body. -/
inductive HttpOutcome where
  | exn (msg : String) : HttpOutcome
  | resp (status : Nat) (body : PyVal) : HttpOutcome

/-- The JSON body posted to the completion endpoint (completion.py lines
36-43): the rendered messages.  The model identifier, URL and auth are
external configuration and carry no information for the verified logic. -/
structure CompletionRequest where
  messages : List (List (String × PyVal))

/-- The JSON body posted to the image endpoint (completion.py lines
65-74).  Model identifier, URL and auth omitted as external
configuration. -/
structure ImageRequest where
  prompt : PyVal
  n : Nat
  size : String
  response_format : String

/-- Lines 44-57 of completion.py: classification of a transport outcome
for the completion pipeline.  Second component: the arguments of the
`logger.exception` calls performed, in order. -/
def handle_completion_outcome (out : HttpOutcome) : CompletionData × List String :=
  match out with
  | .exn e => (⟨.ERROR, .none, .str e⟩, [e])
  | .resp status body =>
    if status = 200 then
      match extract_reply body with
      | .ok reply => (⟨.OK, reply, .none⟩, [])
      | .error e => (⟨.ERROR, .none, .str e⟩, [e])
    else
      match extract_error_code body with
      | .ok code =>
        (⟨if code.eqStr "context_length_exceeded" then .TOO_LONG else .ERROR, .none, body⟩, [])
      | .error e => (⟨.ERROR, .none, .str e⟩, [e])

/-- `generate_completion_response` (completion.py lines 30-57).  `transport`
abstracts `session.post` + `r.json()` on the request the pipeline builds. -/
def generate_completion_response (messages : List Message)
    (transport : CompletionRequest → HttpOutcome) : CompletionData × List String :=
  handle_completion_outcome (transport ⟨messages.map Message.render⟩)

/-- Lines 76-89 of completion.py: classification of a transport outcome
for the image pipeline. -/
def handle_image_outcome (out : HttpOutcome) : ImageCompletionData × List String :=
  match out with
  | .exn e => (⟨.ERROR, .none, .str e⟩, [e])
  | .resp status body =>
    if status = 200 then
      match extract_b64 body with
      | .ok reply => (⟨.OK, reply, .none⟩, [])
      | .error e => (⟨.ERROR, .none, .str e⟩, [e])
    else
      match extract_error_code body with
      | .ok code =>
        (⟨if code.eqStr "context_length_exceeded" then .TOO_LONG else .ERROR, .none, body⟩, [])
      | .error e => (⟨.ERROR, .none, .str e⟩, [e])

/-- `prompt.render().get('content', '')` followed by the request body of
completion.py lines 67-73. -/
def image_request (prompt : Message) : ImageRequest :=
  { prompt := (prompt.render.lookup "content").getD (.str "")
    n := 1
    size := "256x256"
    response_format := "b64_json" }

/-- `generate_image_response` (completion.py lines 59-89). -/
def generate_image_response (prompt : Message)
    (transport : ImageRequest → HttpOutcome) : ImageCompletionData × List String :=
  handle_image_outcome (transport (image_request prompt))

/-- The only embed colour the module uses. -/
inductive EmbedColor where
  | yellow : EmbedColor
deriving DecidableEq

/-- One outbound Discord operation of a renderer.  `sendTextFile c f`
models `thread.send(file=discord.File(io.StringIO(c), f))`;
`sendImageFile v` models `channel.send(file=discord_image(v))`, i.e.
sending the attachment obtained by base64-decoding `v`; `closeThread`
models the external collaborator `close_thread(thread)`. -/
inductive DiscordAction where
  | sendText (s : String) : DiscordAction
  | sendTextFile (content : String) (filename : String) : DiscordAction
  | sendEmbed (description : String) (color : EmbedColor) : DiscordAction
  | sendImageFile (image64 : PyVal) : DiscordAction
  | closeThread : DiscordAction

/-- `process_response` (completion.py lines 92-122), as the ordered list
of Discord operations performed.  `split_into_shorter_messages` and
`MAX_CHARS_PER_REPLY_MSG` are the external collaborators of `src.utils` /
`src.constants`; the splitter receives the reply value exactly as stored
in the bundle. -/
def process_response (split_into_shorter_messages : PyVal → List String)
    (MAX_CHARS_PER_REPLY_MSG : Nat) (d : CompletionData) : List DiscordAction :=
  match d.status with
  | .OK =>
    if d.reply_text.falsy then
      [.sendEmbed "**Invalid response** - empty response" .yellow]
    else
      (split_into_shorter_messages d.reply_text).map (fun r =>
        if MAX_CHARS_PER_REPLY_MSG < r.length then
          .sendTextFile r "message.txt"
        else
          .sendText r)
  | .TOO_LONG => [.closeThread]
  | .ERROR => [.sendEmbed ("**Error** - " ++ d.status_text.pyStr) .yellow]

/-- `process_image_response` (completion.py lines 124-148). -/
def process_image_response (d : ImageCompletionData) : List DiscordAction :=
  match d.status with
  | .OK =>
    if d.image64.falsy then
      [.sendEmbed "**Invalid response** - empty response" .yellow]
    else
      [.sendImageFile d.image64]
  | _ => [.sendEmbed ("**Error** - " ++ d.status_text.pyStr) .yellow]

/-- A well-formed success body for the completion endpoint, used as a
concrete sample in witnesses. -/
def sampleChoicesBody : PyVal :=
  .dict [("choices", .list [.dict [("message", .dict [("content", .str "hi")])]])]



theorem PyVal.eqStr_iff (v : PyVal) (t : String) : v.eqStr t = true ↔ v = .str t := by
  cases v <;> simp [PyVal.eqStr]

theorem PyVal.getKey_ok_ne_none {v : PyVal} {k : String} {u : PyVal}
    (h : v.getKey k = Except.ok u) : v ≠ PyVal.none := by
  intro hv
  subst hv
  simp [PyVal.getKey] at h

/-- Claim C1: for every non-200 HTTP response to either pipeline whose
error payload embeds an error code, the result is classified `TOO_LONG`
when that code equals the sentinel `context_length_exceeded` and `ERROR`
for any other code, and in both cases the raw error payload is carried as
the result's status text. -/
theorem nonOK_http_classification (messages : List Message) (m : Message)
    (s : Nat) (body code : PyVal) (hs : s ≠ 200)
    (hcode : extract_error_code body = Except.ok code) :
    (code = PyVal.str "context_length_exceeded" →
      (generate_completion_response messages (fun _ => .resp s body)).1.status =
        .TOO_LONG ∧
      (generate_image_response m (fun _ => .resp s body)).1.status = .TOO_LONG)
    ∧ (code ≠ PyVal.str "context_length_exceeded" →
      (generate_completion_response messages (fun _ => .resp s body)).1.status = .ERROR ∧
      (generate_image_response m (fun _ => .resp s body)).1.status = .ERROR)
    ∧ (generate_completion_response messages (fun _ => .resp s body)).1.status_text = body
    ∧ (generate_image_response m (fun _ => .resp s body)).1.status_text = body := by
  refine ⟨fun heq => ?_, fun hne => ?_, ?_, ?_⟩
  · have h : code.eqStr "context_length_exceeded" = true := (PyVal.eqStr_iff ..).mpr heq
    simp [generate_completion_response, generate_image_response,
      handle_completion_outcome, handle_image_outcome, if_neg hs, hcode, h]
  · have h : code.eqStr "context_length_exceeded" = false := by
      rw [← Bool.not_eq_true, PyVal.eqStr_iff]
      exact hne
    simp [generate_completion_response, generate_image_response,
      handle_completion_outcome, handle_image_outcome, if_neg hs, hcode, h]
  · simp only [generate_completion_response, handle_completion_outcome, if_neg hs, hcode]
  · simp only [generate_image_response, handle_image_outcome, if_neg hs, hcode]

theorem nonOK_http_classification_witness :
    ((generate_completion_response []
        (fun _ => .resp 400 (.dict [("error",
          .dict [("code", .str "context_length_exceeded")])]))).1.status =
      CompletionResult.TOO_LONG)
    ∧ ((generate_image_response ⟨[]⟩
        (fun _ => .resp 400 (.dict [("error",
          .dict [("code", .str "quota_exceeded")])]))).1.status =
      CompletionResult.ERROR) := by
  have h1 := nonOK_http_classification [] ⟨[]⟩ 400
    (.dict [("error", .dict [("code", .str "context_length_exceeded")])])
    (.str "context_length_exceeded") (by simp) rfl
  have h2 := nonOK_http_classification [] ⟨[]⟩ 400
    (.dict [("error", .dict [("code", .str "quota_exceeded")])])
    (.str "quota_exceeded") (by simp) rfl
  exact ⟨(h1.1 rfl).1, (h2.2.1 (by simp)).2⟩

/-- Claim C2: every exception raised during a pipeline call (transport or
parsing, in either pipeline) is caught, logged exactly once, and turned
into a result classified `ERROR` whose status text is the exception's
string representation; the pipeline is a total function, so no exception
propagates to the caller. -/
theorem pipeline_exceptions_to_ERROR (messages : List Message) (m : Message)
    (e : String) (s : Nat) (body : PyVal) :
    (generate_completion_response messages (fun _ => .exn e) =
      (⟨.ERROR, .none, .str e⟩, [e]))
    ∧ (generate_image_response m (fun _ => .exn e) = (⟨.ERROR, .none, .str e⟩, [e]))
    ∧ (extract_reply body = Except.error e →
        generate_completion_response messages (fun _ => .resp 200 body) =
          (⟨.ERROR, .none, .str e⟩, [e]))
    ∧ (extract_b64 body = Except.error e →
        generate_image_response m (fun _ => .resp 200 body) =
          (⟨.ERROR, .none, .str e⟩, [e]))
    ∧ (s ≠ 200 → extract_error_code body = Except.error e →
        generate_completion_response messages (fun _ => .resp s body) =
          (⟨.ERROR, .none, .str e⟩, [e]))
    ∧ (s ≠ 200 → extract_error_code body = Except.error e →
        generate_image_response m (fun _ => .resp s body) =
          (⟨.ERROR, .none, .str e⟩, [e])) := by
  refine ⟨rfl, rfl, fun h => ?_, fun h => ?_, fun hs h => ?_, fun hs h => ?_⟩
  · simp [generate_completion_response, handle_completion_outcome, h]
  · simp [generate_image_response, handle_image_outcome, h]
  · simp [generate_completion_response, handle_completion_outcome, h, if_neg hs]
  · simp [generate_image_response, handle_image_outcome, h, if_neg hs]

theorem pipeline_exceptions_to_ERROR_witness :
    (generate_completion_response [] (fun _ => .exn "Cannot connect to host") =
      (⟨.ERROR, .none, .str "Cannot connect to host"⟩, ["Cannot connect to host"]))
    ∧ (generate_completion_response []
        (fun _ => .resp 200 (.dict [])) =
      (⟨.ERROR, .none, .str (squote "choices")⟩, [squote "choices"]))
    ∧ (generate_image_response ⟨[]⟩
        (fun _ => .resp 200 (.dict [])) =
      (⟨.ERROR, .none, .str (squote "data")⟩, [squote "data"]))
    ∧ (generate_image_response ⟨[]⟩
        (fun _ => .resp 503 (.dict [])) =
      (⟨.ERROR, .none, .str (squote "error")⟩, [squote "error"])) := by
  refine ⟨(pipeline_exceptions_to_ERROR [] ⟨[]⟩ "Cannot connect to host" 0 (.dict [])).1,
    (pipeline_exceptions_to_ERROR [] ⟨[]⟩ (squote "choices") 0 (.dict [])).2.2.1 rfl,
    (pipeline_exceptions_to_ERROR [] ⟨[]⟩ (squote "data") 0 (.dict [])).2.2.2.1 rfl,
    (pipeline_exceptions_to_ERROR [] ⟨[]⟩ (squote "error") 503
      (.dict [])).2.2.2.2.2 (by simp) rfl⟩

/-- Claim C3: for every non-empty sequence of input messages, an HTTP 200
reply with a well-formed choices body yields a result classified `OK`
whose reply text equals the first choice's message content — with no
emptiness validation, as the witness at empty content shows. -/
theorem ok_http_returns_first_choice_content (messages : List Message)
    (_h : messages ≠ []) (body reply : PyVal)
    (hex : extract_reply body = Except.ok reply) :
    (generate_completion_response messages (fun _ => .resp 200 body)).1 =
      ⟨.OK, reply, .none⟩ := by
  simp [generate_completion_response, handle_completion_outcome, hex]

theorem ok_http_returns_first_choice_content_witness :
    (generate_completion_response [⟨[("role", .str "user"), ("content", .str "hi")]⟩]
        (fun _ => .resp 200 (.dict [("choices",
          .list [.dict [("message", .dict [("content", .str "")])]])]))).1 =
      ⟨.OK, .str "", .none⟩ :=
  ok_http_returns_first_choice_content _ (by simp) _ _ rfl

/-- Claim C4: every result bundle either pipeline returns has exactly one
of the payload field (`reply_text` / `image64`) and `status_text`
populated (i.e. not Python `None`), determined by the classification:
payload present iff `OK`, status text present iff not `OK`.  The success
body is assumed to meet the external-interface contract of spec §6, i.e.
its extracted content is not JSON `null`. -/
theorem result_bundle_exclusive_fields (messages : List Message) (m : Message)
    (out outI : HttpOutcome)
    (hok : ∀ body, out = HttpOutcome.resp 200 body →
      extract_reply body ≠ Except.ok PyVal.none)
    (hokI : ∀ body, outI = HttpOutcome.resp 200 body →
      extract_b64 body ≠ Except.ok PyVal.none)
    (d : CompletionData) (di : ImageCompletionData)
    (hd : d = (generate_completion_response messages (fun _ => out)).1)
    (hdi : di = (generate_image_response m (fun _ => outI)).1) :
    ((d.status = .OK ↔ d.reply_text ≠ PyVal.none)
      ∧ (d.status ≠ .OK ↔ d.status_text ≠ PyVal.none))
    ∧ ((di.status = .OK ↔ di.image64 ≠ PyVal.none)
      ∧ (di.status ≠ .OK ↔ di.status_text ≠ PyVal.none)) := by
  subst hd hdi
  constructor
  · cases out with
    | exn e => simp [generate_completion_response, handle_completion_outcome]
    | resp s body =>
      by_cases hs : s = 200
      · subst hs
        rcases hre : extract_reply body with e | reply
        · simp [generate_completion_response, handle_completion_outcome, hre]
        · have hne : reply ≠ PyVal.none := fun hn => hok body rfl (hn ▸ hre)
          simp [generate_completion_response, handle_completion_outcome, hre, hne]
      · rcases hec : extract_error_code body with e | code
        · simp [generate_completion_response, handle_completion_outcome, hs, hec]
        · have hb : body ≠ PyVal.none := by
            rcases hgk : body.getKey "error" with e' | v
            · rw [extract_error_code, hgk] at hec
              exact absurd hec (by simp [Bind.bind, Except.bind])
            · exact PyVal.getKey_ok_ne_none hgk
          cases hc : code.eqStr "context_length_exceeded" <;>
            simp [generate_completion_response, handle_completion_outcome, hs, hec, hc, hb]
  · cases outI with
    | exn e => simp [generate_image_response, handle_image_outcome]
    | resp s body =>
      by_cases hs : s = 200
      · subst hs
        rcases hre : extract_b64 body with e | reply
        · simp [generate_image_response, handle_image_outcome, hre]
        · have hne : reply ≠ PyVal.none := fun hn => hokI body rfl (hn ▸ hre)
          simp [generate_image_response, handle_image_outcome, hre, hne]
      · rcases hec : extract_error_code body with e | code
        · simp [generate_image_response, handle_image_outcome, hs, hec]
        · have hb : body ≠ PyVal.none := by
            rcases hgk : body.getKey "error" with e' | v
            · rw [extract_error_code, hgk] at hec
              exact absurd hec (by simp [Bind.bind, Except.bind])
            · exact PyVal.getKey_ok_ne_none hgk
          cases hc : code.eqStr "context_length_exceeded" <;>
            simp [generate_image_response, handle_image_outcome, hs, hec, hc, hb]

theorem result_bundle_exclusive_fields_witness :
    (((generate_completion_response [] (fun _ => .resp 200 sampleChoicesBody)).1.status = .OK ↔
        (generate_completion_response [] (fun _ => .resp 200 sampleChoicesBody)).1.reply_text ≠
          PyVal.none)
      ∧ ((generate_completion_response [] (fun _ => .resp 200 sampleChoicesBody)).1.status ≠ .OK ↔
        (generate_completion_response [] (fun _ => .resp 200 sampleChoicesBody)).1.status_text ≠
          PyVal.none))
    ∧ (((generate_image_response ⟨[]⟩ (fun _ => .exn "no route to host")).1.status = .OK ↔
        (generate_image_response ⟨[]⟩ (fun _ => .exn "no route to host")).1.image64 ≠ PyVal.none)
      ∧ ((generate_image_response ⟨[]⟩ (fun _ => .exn "no route to host")).1.status ≠ .OK ↔
        (generate_image_response ⟨[]⟩
          (fun _ => .exn "no route to host")).1.status_text ≠ PyVal.none)) := by
  refine result_bundle_exclusive_fields [] ⟨[]⟩ _ _ ?_ ?_ _ _ rfl rfl
  · intro body hb
    cases hb
    intro hcon
    exact PyVal.noConfusion (Except.ok.inj hcon)
  · intro body hb
    exact HttpOutcome.noConfusion hb

/-- Claim C5: rendering a `CompletionData` classified `TOO_LONG` performs
exactly the external `close_thread` operation and sends no chat message. -/
theorem render_too_long_closes_thread (split_into_shorter_messages : PyVal → List String)
    (MAX_CHARS_PER_REPLY_MSG : Nat) (d : CompletionData) (h : d.status = .TOO_LONG) :
    process_response split_into_shorter_messages MAX_CHARS_PER_REPLY_MSG d =
      [DiscordAction.closeThread] := by
  simp [process_response, h]

theorem render_too_long_closes_thread_witness :
    process_response (fun _ => []) 1500 ⟨.TOO_LONG, .none, .none⟩ =
      [DiscordAction.closeThread] :=
  render_too_long_closes_thread _ _ _ rfl

/-- Claim C6: rendering a `CompletionData` classified `OK` with non-empty
reply text sends the splitter's chunks in order, each chunk longer than
`MAX_CHARS_PER_REPLY_MSG` as a `message.txt` file attachment and every
other chunk as an ordinary message. -/
theorem render_ok_reply_chunked (split_into_shorter_messages : PyVal → List String)
    (MAX_CHARS_PER_REPLY_MSG : Nat) (d : CompletionData) (t : String)
    (hok : d.status = .OK) (ht : d.reply_text = .str t) (hne : t ≠ "") :
    process_response split_into_shorter_messages MAX_CHARS_PER_REPLY_MSG d =
      (split_into_shorter_messages (.str t)).map (fun r =>
        if MAX_CHARS_PER_REPLY_MSG < r.length then DiscordAction.sendTextFile r "message.txt"
        else DiscordAction.sendText r) := by
  have hemp : t.isEmpty = false := by
    cases hemp : t.isEmpty
    · rfl
    · exact absurd ((String.isEmpty_iff t).mp hemp) hne
  simp [process_response, hok, ht, PyVal.falsy, hemp]

theorem render_ok_reply_chunked_witness :
    process_response (fun _ => ["ab", "cdef"]) 3 ⟨.OK, .str "abcdef", .none⟩ =
      [DiscordAction.sendText "ab", DiscordAction.sendTextFile "cdef" "message.txt"] := by
  have h := render_ok_reply_chunked (fun _ => ["ab", "cdef"]) 3 ⟨.OK, .str "abcdef", .none⟩
    "abcdef" rfl rfl (by decide)
  rw [h]
  rfl

/-- Claim C7: rendering an `ImageCompletionData` whose classification is
not `OK` emits exactly one error-style notice carrying the status text;
`TOO_LONG` gets no special handling and behaves identically to `ERROR`
(in particular no channel-closure analogue of the text path). -/
theorem render_image_nonOK_error_notice (di : ImageCompletionData) (h : di.status ≠ .OK) :
    process_image_response di =
      [DiscordAction.sendEmbed ("**Error** - " ++ di.status_text.pyStr) .yellow]
    ∧ process_image_response ⟨.TOO_LONG, di.image64, di.status_text⟩ =
      process_image_response ⟨.ERROR, di.image64, di.status_text⟩ := by
  obtain ⟨s, i, st⟩ := di
  refine ⟨?_, rfl⟩
  cases s with
  | OK => exact absurd rfl h
  | TOO_LONG => rfl
  | ERROR => rfl

theorem render_image_nonOK_error_notice_witness :
    process_image_response ⟨.TOO_LONG, .none, .str "upstream rejected"⟩ =
      [DiscordAction.sendEmbed ("**Error** - " ++ (PyVal.str "upstream rejected").pyStr) .yellow]
    ∧ process_image_response ⟨.TOO_LONG, .none, .str "upstream rejected"⟩ =
      process_image_response ⟨.ERROR, .none, .str "upstream rejected"⟩ :=
  render_image_nonOK_error_notice ⟨.TOO_LONG, .none, .str "upstream rejected"⟩ (by decide)

/-- Claim C8: rendering a result classified `OK` whose payload is empty
(Python-falsy: empty string, or `None`) produces the same single
"Invalid response - empty response" warning notice in both renderers and
sends nothing else. -/
theorem render_ok_empty_payload_notice (split_into_shorter_messages : PyVal → List String)
    (MAX_CHARS_PER_REPLY_MSG : Nat) (d : CompletionData) (di : ImageCompletionData)
    (hd : d.status = .OK) (hdr : d.reply_text.falsy = true)
    (hi : di.status = .OK) (hir : di.image64.falsy = true) :
    process_response split_into_shorter_messages MAX_CHARS_PER_REPLY_MSG d =
      [DiscordAction.sendEmbed "**Invalid response** - empty response" .yellow]
    ∧ process_image_response di =
      [DiscordAction.sendEmbed "**Invalid response** - empty response" .yellow] := by
  constructor
  · simp [process_response, hd, hdr]
  · simp [process_image_response, hi, hir]

theorem render_ok_empty_payload_notice_witness :
    process_response (fun _ => []) 1500 ⟨.OK, .str "", .none⟩ =
      [DiscordAction.sendEmbed "**Invalid response** - empty response" .yellow]
    ∧ process_image_response ⟨.OK, .str "", .none⟩ =
      [DiscordAction.sendEmbed "**Invalid response** - empty response" .yellow] :=
  render_ok_empty_payload_notice _ _ _ _ rfl rfl rfl rfl

/-- Claim C9: rendering an `ImageCompletionData` classified `OK` with a
non-empty base64 payload sends exactly one file attachment (the decoded
image) and no other message. -/
theorem render_image_ok_single_file (di : ImageCompletionData)
    (h : di.status = .OK) (hne : di.image64.falsy = false) :
    process_image_response di = [DiscordAction.sendImageFile di.image64] := by
  simp [process_image_response, h, hne]

theorem render_image_ok_single_file_witness :
    process_image_response ⟨.OK, .str "aGVsbG8=", .none⟩ =
      [DiscordAction.sendImageFile (.str "aGVsbG8=")] :=
  render_image_ok_single_file _ rfl rfl

/-- Claim C10: when the prompt's `render()` mapping lacks a `content`
key, the image pipeline does not fail on extraction: the request is
built with the empty string as prompt and is still issued to the
transport. -/
theorem image_prompt_missing_content_defaults (m : Message)
    (h : m.render.lookup "content" = Option.none)
    (transport : ImageRequest → HttpOutcome) :
    image_request m = ⟨.str "", 1, "256x256", "b64_json"⟩
    ∧ generate_image_response m transport =
      handle_image_outcome (transport ⟨.str "", 1, "256x256", "b64_json"⟩) := by
  have hreq : image_request m = ⟨.str "", 1, "256x256", "b64_json"⟩ := by
    simp [image_request, h]
  refine ⟨hreq, ?_⟩
  rw [generate_image_response, hreq]

theorem image_prompt_missing_content_defaults_witness :
    image_request ⟨[("role", .str "user")]⟩ =
      ⟨.str "", 1, "256x256", "b64_json"⟩
    ∧ generate_image_response ⟨[("role", .str "user")]⟩ (fun _ => .exn "connection refused") =
      handle_image_outcome (.exn "connection refused") :=
  image_prompt_missing_content_defaults ⟨[("role", .str "user")]⟩ rfl
    (fun _ => .exn "connection refused")
